import Mathlib

/-!
Shallow embedding of the carbon-calculator computation model of `src/app.py`.

Python dictionaries keyed by strings are embedded as `String → Option ℚ`
lookup functions (a missing key, which raises `KeyError` in Python, becomes
`none`).  All numeric quantities are embedded as rationals; `round(x, 3)`
becomes `round3`, rounding to the nearest multiple of `1/1000`.  Mathlib's
`round` rounds halves up while Python rounds halves to even, but no value
arising in this development sits exactly on a half-multiple of `1/1000`, so
the embedding agrees with the source on every input considered here.
-/

namespace CarbonCalc

/-- Emission factor table `ELECTRICITY_EF` (app.py lines 16-19): kgCO2e per kWh. -/
def ELECTRICITY_EF (country : String) : Option ℚ :=
  if country = "India" then some (716/1000) else none

/-- Emission factor table `TRANSPORT_EF_PAXKM` (app.py lines 21-27): kgCO2e per passenger-km. -/
def TRANSPORT_EF_PAXKM (mode : String) : Option ℚ :=
  if mode = "car" then some (170/1000)
  else if mode = "bus" then some (97/1000)
  else if mode = "rail" then some (8/1000)
  else none

/-- Diet presets `DIET_DAILY` (app.py lines 30-37): kgCO2e per day. -/
def DIET_DAILY (diet : String) : Option ℚ :=
  if diet = "High meat" then some (719/100)
  else if diet = "Medium meat" then some (563/100)
  else if diet = "Low meat" then some (467/100)
  else if diet = "Fish-based" then some (391/100)
  else if diet = "Vegetarian" then some (381/100)
  else if diet = "Vegan" then some (289/100)
  else none

/-- Waste treatment factors `WASTE_EF` (app.py lines 41-45): kgCO2e per kg residual waste. -/
def WASTE_EF (treatment : String) : Option ℚ :=
  if treatment = "Landfill (typical managed)" then some (45/100)
  else if treatment = "Incineration (energy recovery)" then some (110/100)
  else if treatment = "Composting/AD (food/green fractions)" then some (10/100)
  else none

/-- India per-capita benchmark (app.py line 48), display only. -/
def INDIA_PER_CAPITA_T_CO2 : ℚ := 2

/-- The activity inputs collected by the Calculator tab (app.py lines 67-96). -/
structure ActivityInput where
  country : String
  mode : String
  daily_commute_km : ℚ
  commute_days : ℚ
  car_occupancy : ℚ
  monthly_kwh : ℚ
  diet_type : String
  weekly_waste_kg : ℚ
  segregation : ℚ
  waste_treatment : String

/-- `annual_kwh = monthly_kwh * 12` (app.py line 83). -/
def annual_kwh (i : ActivityInput) : ℚ := i.monthly_kwh * 12

/-- `annual_commute_km = daily_commute_km * commute_days` (app.py line 100). -/
def annual_commute_km (i : ActivityInput) : ℚ := i.daily_commute_km * i.commute_days

/-- Commute emissions (app.py lines 100-108): `pax_km = annual_commute_km`; the
branch on `mode == "car" and car_occupancy > 0` looks up the car factor, every
other case looks up the chosen mode; either way the result is `pax_km * ef` and
the occupancy never enters the formula. -/
def transport_emissions_kg (i : ActivityInput) : Option ℚ :=
  let pax_km := annual_commute_km i
  if i.mode = "car" ∧ 0 < i.car_occupancy then
    (TRANSPORT_EF_PAXKM "car").map fun ef => pax_km * ef
  else
    (TRANSPORT_EF_PAXKM i.mode).map fun ef => pax_km * ef

/-- `electricity_emissions_kg = annual_kwh * ELECTRICITY_EF[country]` (app.py line 111). -/
def electricity_emissions_kg (i : ActivityInput) : Option ℚ :=
  (ELECTRICITY_EF i.country).map fun ef => annual_kwh i * ef

/-- `diet_emissions_kg = DIET_DAILY[diet_type] * 365.0` (app.py line 114). -/
def diet_emissions_kg (i : ActivityInput) : Option ℚ :=
  (DIET_DAILY i.diet_type).map fun d => d * 365

/-- `residual_weekly = weekly_waste_kg * (1 - segregation / 100.0)` (app.py line 117). -/
def residual_weekly (i : ActivityInput) : ℚ :=
  i.weekly_waste_kg * (1 - i.segregation / 100)

/-- `annual_residual_kg = residual_weekly * 52.0` (app.py line 118). -/
def annual_residual_kg (i : ActivityInput) : ℚ := residual_weekly i * 52

/-- `waste_emissions_kg = annual_residual_kg * WASTE_EF[waste_treatment]` (app.py line 119). -/
def waste_emissions_kg (i : ActivityInput) : Option ℚ :=
  (WASTE_EF i.waste_treatment).map fun ef => annual_residual_kg i * ef

/-- Python's `round(x, 3)`: round to the nearest multiple of `1/1000`. -/
def round3 (q : ℚ) : ℚ := (round (q * 1000) : ℤ) / 1000

/-- The per-category output dictionary of app.py lines 122-127, in tonnes. -/
structure CategoryResult where
  transportation : ℚ
  electricity : ℚ
  diet : ℚ
  waste : ℚ

/-- `category_tonnes` (app.py lines 122-127): each category's kg value divided by
1000 and rounded to 3 decimals; `none` when any factor lookup raises `KeyError`. -/
def category_tonnes (i : ActivityInput) : Option CategoryResult :=
  (transport_emissions_kg i).bind fun t =>
  (electricity_emissions_kg i).bind fun e =>
  (diet_emissions_kg i).bind fun d =>
  (waste_emissions_kg i).map fun w =>
  ⟨round3 (t / 1000), round3 (e / 1000), round3 (d / 1000), round3 (w / 1000)⟩

/-- `sum(category_tonnes.values())`. -/
def sum_categories (r : CategoryResult) : ℚ :=
  r.transportation + r.electricity + r.diet + r.waste

/-- `total_tonnes = round(sum(category_tonnes.values()), 3)` (app.py line 128). -/
def total_tonnes (i : ActivityInput) : Option ℚ :=
  (category_tonnes i).map fun r => round3 (sum_categories r)

/-- The `Total` value exported in the CSV dataframe (app.py line 247) and in the
JSON payload (app.py line 274): `sum(category_tonnes.values())`, no further rounding. -/
def export_total (r : CategoryResult) : ℚ := sum_categories r

/-- The What-if tab's override knobs (app.py lines 186-192). -/
structure WhatIfInput where
  alt_mode : String
  alt_occupancy : ℚ
  kwh_cut : ℚ
  diet_switch : String
  extra_segregation : ℚ

/-- `new_segregation = min(100, segregation + extra_segregation)` (app.py line 211). -/
def new_segregation (i : ActivityInput) (w : WhatIfInput) : ℚ :=
  min 100 (i.segregation + w.extra_segregation)

/-- The What-if alternate total `new_total_t` (app.py lines 196-215): the four
alternate per-category kg values are summed unrounded, divided by 1000 and
rounded once. -/
def new_total_t (i : ActivityInput) (w : WhatIfInput) : Option ℚ :=
  (TRANSPORT_EF_PAXKM w.alt_mode).bind fun tef =>
  (ELECTRICITY_EF i.country).bind fun eef =>
  (DIET_DAILY w.diet_switch).bind fun dd =>
  (WASTE_EF i.waste_treatment).map fun wef =>
  let new_paxkm := i.daily_commute_km * i.commute_days
  let new_trans_kg := new_paxkm * tef
  let new_monthly_kwh := i.monthly_kwh * (1 - w.kwh_cut / 100)
  let new_elec_kg := new_monthly_kwh * 12 * eef
  let new_diet_kg := dd * 365
  let new_residual_weekly := i.weekly_waste_kg * (1 - new_segregation i w / 100)
  let new_waste_kg := new_residual_weekly * 52 * wef
  round3 ((new_trans_kg + new_elec_kg + new_diet_kg + new_waste_kg) / 1000)

/-- The alternate `ActivityInput` that the spec's Scenario Comparator contract
describes: baseline fields with the What-if overrides applied (commute mode,
occupancy, electricity reduction, diet switch, capped segregation increase).
This follows the spec's composition policy and is the reference point the
refinement claim compares `new_total_t` against. -/
def alternateInput (i : ActivityInput) (w : WhatIfInput) : ActivityInput :=
  { i with
    mode := w.alt_mode
    car_occupancy := w.alt_occupancy
    monthly_kwh := i.monthly_kwh * (1 - w.kwh_cut / 100)
    diet_type := w.diet_switch
    segregation := new_segregation i w }

/-- The spec's input domain (spec §3): non-negative quantities, commute days in
[0, 365], occupancy at least 1, segregation percent in [0, 100], and every
enum field a recognized key of its factor table. -/
def ValidInput (i : ActivityInput) : Prop :=
  0 ≤ i.daily_commute_km ∧ 0 ≤ i.commute_days ∧ i.commute_days ≤ 365 ∧
  1 ≤ i.car_occupancy ∧ 0 ≤ i.monthly_kwh ∧ 0 ≤ i.weekly_waste_kg ∧
  0 ≤ i.segregation ∧ i.segregation ≤ 100 ∧
  (ELECTRICITY_EF i.country).isSome ∧ (TRANSPORT_EF_PAXKM i.mode).isSome ∧
  (DIET_DAILY i.diet_type).isSome ∧ (WASTE_EF i.waste_treatment).isSome

/-! ### Generic lemmas about `round3` and the factor tables -/

/-- `round3` is the identity on multiples of `1/1000`. -/
theorem round3_int_div (k : ℤ) : round3 ((k : ℚ) / 1000) = (k : ℚ) / 1000 := by
  unfold round3
  rw [div_mul_cancel₀ _ (by norm_num : (1000 : ℚ) ≠ 0), round_intCast]

/-- `round3` is idempotent. -/
theorem round3_idem (q : ℚ) : round3 (round3 q) = round3 q :=
  round3_int_div _

/-- `round3` moves a value by at most half a thousandth. -/
theorem abs_round3_sub (q : ℚ) : |round3 q - q| ≤ 1 / 2000 := by
  unfold round3
  have h := abs_sub_round (q * 1000)
  rw [abs_sub_comm] at h
  have hq : ((round (q * 1000) : ℤ) : ℚ) / 1000 - q
      = (((round (q * 1000) : ℤ) : ℚ) - q * 1000) / 1000 := by ring
  rw [hq, abs_div, abs_of_pos (by norm_num : (0 : ℚ) < 1000)]
  linarith

/-- `round3` is monotone. -/
theorem round3_mono {a b : ℚ} (h : a ≤ b) : round3 a ≤ round3 b := by
  unfold round3
  have hr : round (a * 1000) ≤ round (b * 1000) := by
    rw [round_eq, round_eq]
    exact Int.floor_le_floor (by linarith)
  have hc : ((round (a * 1000) : ℤ) : ℚ) ≤ ((round (b * 1000) : ℤ) : ℚ) := Int.cast_le.mpr hr
  linarith

/-- `round3` preserves non-negativity. -/
theorem round3_nonneg {q : ℚ} (h : 0 ≤ q) : 0 ≤ round3 q := by
  calc (0 : ℚ) = round3 0 := by simp [round3]
  _ ≤ round3 q := round3_mono h

/-- A sum of four already-rounded values is itself a multiple of `1/1000`, so a
final `round3` leaves it unchanged. -/
theorem round3_sum_rounded (a b c d : ℚ) :
    round3 (round3 a + round3 b + round3 c + round3 d)
      = round3 a + round3 b + round3 c + round3 d := by
  have h : round3 a + round3 b + round3 c + round3 d
      = ((round (a * 1000) + round (b * 1000) + round (c * 1000) + round (d * 1000) : ℤ) : ℚ)
        / 1000 := by
    unfold round3
    push_cast
    ring
  rw [h, round3_int_div]

/-- Every transport factor in the table is non-negative. -/
theorem TRANSPORT_EF_nonneg {m : String} {f : ℚ} (h : TRANSPORT_EF_PAXKM m = some f) :
    0 ≤ f := by
  unfold TRANSPORT_EF_PAXKM at h
  split_ifs at h <;> (cases h; norm_num)

/-- The only populated electricity factor is India's `0.716`. -/
theorem ELECTRICITY_EF_eq {c : String} {f : ℚ} (h : ELECTRICITY_EF c = some f) :
    f = 716 / 1000 := by
  unfold ELECTRICITY_EF at h
  split_ifs at h
  cases h
  rfl

/-- Every waste factor in the table is strictly positive. -/
theorem WASTE_EF_pos {t : String} {f : ℚ} (h : WASTE_EF t = some f) : 0 < f := by
  unfold WASTE_EF at h
  split_ifs at h <;> (cases h; norm_num)

/-- Every diet preset is at least the vegan value `2.89` kg/day. -/
theorem DIET_DAILY_ge {p : String} {f : ℚ} (h : DIET_DAILY p = some f) :
    289 / 100 ≤ f := by
  unfold DIET_DAILY at h
  split_ifs at h <;> (cases h; norm_num)

/-- Both branches of the occupancy conditional compute the same formula: the
commute emissions are always `annual_commute_km * factor[mode]`. -/
theorem transport_kg_eq (i : ActivityInput) :
    transport_emissions_kg i
      = (TRANSPORT_EF_PAXKM i.mode).map fun ef => annual_commute_km i * ef := by
  unfold transport_emissions_kg
  by_cases h : i.mode = "car" ∧ 0 < i.car_occupancy
  · rw [if_pos h, h.1]
  · rw [if_neg h]

/-- Inversion for `category_tonnes`: a successful computation determines the four
kg values and shows every category field is a rounded tonnes value. -/
theorem category_tonnes_some {i : ActivityInput} {r : CategoryResult}
    (h : category_tonnes i = some r) :
    ∃ t e d w, transport_emissions_kg i = some t ∧ electricity_emissions_kg i = some e ∧
      diet_emissions_kg i = some d ∧ waste_emissions_kg i = some w ∧
      r = ⟨round3 (t / 1000), round3 (e / 1000), round3 (d / 1000), round3 (w / 1000)⟩ := by
  unfold category_tonnes at h
  simp only [Option.bind_eq_some, Option.map_eq_some'] at h
  obtain ⟨t, h1, e, h2, d, h3, w, h4, h5⟩ := h
  exact ⟨t, e, d, w, h1, h2, h3, h4, h5.symm⟩

/-- Introduction for `category_tonnes` from the four kg values. -/
theorem category_tonnes_eq (i : ActivityInput) {t e d w : ℚ}
    (h1 : transport_emissions_kg i = some t)
    (h2 : electricity_emissions_kg i = some e)
    (h3 : diet_emissions_kg i = some d)
    (h4 : waste_emissions_kg i = some w) :
    category_tonnes i =
      some ⟨round3 (t / 1000), round3 (e / 1000), round3 (d / 1000), round3 (w / 1000)⟩ := by
  simp [category_tonnes, h1, h2, h3, h4]

/-- The rounded diet tonnes are at least `1.055` for every recognized diet. -/
theorem diet_tonnes_ge {i : ActivityInput} {d : ℚ} (h : diet_emissions_kg i = some d) :
    1055 / 1000 ≤ round3 (d / 1000) := by
  unfold diet_emissions_kg at h
  rw [Option.map_eq_some'] at h
  obtain ⟨f, hf, hd⟩ := h
  have hge := DIET_DAILY_ge hf
  have h1 : (105485 / 100000 : ℚ) ≤ d / 1000 := by
    rw [← hd]
    linarith
  have h2 := round3_mono h1
  have h3 : round3 (105485 / 100000) = 1055 / 1000 := by norm_num [round3, round_eq]
  linarith

/-! ### Concrete inputs and evaluation lemmas -/

/-- The spec §8 concrete scenario: India, car, 15 km/day, 240 days/yr, occupancy 1,
250 kWh/month, medium-meat diet, 4 kg/week residual waste, 20% segregation, landfill. -/
def scenarioInput : ActivityInput :=
  { country := "India", mode := "car", daily_commute_km := 15, commute_days := 240,
    car_occupancy := 1, monthly_kwh := 250, diet_type := "Medium meat",
    weekly_waste_kg := 4, segregation := 20,
    waste_treatment := "Landfill (typical managed)" }

/-- An input with every numeric quantity at zero (medium-meat diet, landfill). -/
def zeroInput : ActivityInput :=
  { country := "India", mode := "car", daily_commute_km := 0, commute_days := 0,
    car_occupancy := 1, monthly_kwh := 0, diet_type := "Medium meat",
    weekly_waste_kg := 0, segregation := 0,
    waste_treatment := "Landfill (typical managed)" }

theorem DIET_DAILY_medium : DIET_DAILY "Medium meat" = some (563/100) := by
  simp [DIET_DAILY]

theorem DIET_DAILY_vegan : DIET_DAILY "Vegan" = some (289/100) := by
  simp [DIET_DAILY]

theorem TRANSPORT_EF_car : TRANSPORT_EF_PAXKM "car" = some (170/1000) := by
  simp [TRANSPORT_EF_PAXKM]

theorem ELECTRICITY_EF_India : ELECTRICITY_EF "India" = some (716/1000) := by
  simp [ELECTRICITY_EF]

theorem WASTE_EF_landfill : WASTE_EF "Landfill (typical managed)" = some (45/100) := by
  simp [WASTE_EF]

theorem transport_scenario : transport_emissions_kg scenarioInput = some 612 := by
  norm_num [transport_emissions_kg, scenarioInput, annual_commute_km, TRANSPORT_EF_PAXKM]

theorem elec_scenario : electricity_emissions_kg scenarioInput = some 2148 := by
  norm_num [electricity_emissions_kg, scenarioInput, annual_kwh, ELECTRICITY_EF]

theorem diet_scenario : diet_emissions_kg scenarioInput = some (205495/100) := by
  simp only [diet_emissions_kg, scenarioInput]
  rw [DIET_DAILY_medium]
  norm_num

theorem waste_scenario : waste_emissions_kg scenarioInput = some (7488/100) := by
  norm_num [waste_emissions_kg, scenarioInput, annual_residual_kg, residual_weekly, WASTE_EF]

theorem cat_scenario : category_tonnes scenarioInput =
    some ⟨612/1000, 2148/1000, 2055/1000, 75/1000⟩ := by
  rw [category_tonnes_eq scenarioInput transport_scenario elec_scenario diet_scenario
    waste_scenario]
  norm_num [round3, round_eq]

theorem total_scenario : total_tonnes scenarioInput = some (4890/1000) := by
  rw [total_tonnes, cat_scenario]
  norm_num [sum_categories, round3, round_eq]

theorem valid_scenario : ValidInput scenarioInput := by
  refine ⟨by norm_num [scenarioInput], by norm_num [scenarioInput], by norm_num [scenarioInput],
    by norm_num [scenarioInput], by norm_num [scenarioInput], by norm_num [scenarioInput],
    by norm_num [scenarioInput], by norm_num [scenarioInput], ?_, ?_, ?_, ?_⟩
  · rw [show scenarioInput.country = "India" from rfl, ELECTRICITY_EF_India]; rfl
  · rw [show scenarioInput.mode = "car" from rfl, TRANSPORT_EF_car]; rfl
  · rw [show scenarioInput.diet_type = "Medium meat" from rfl, DIET_DAILY_medium]; rfl
  · rw [show scenarioInput.waste_treatment = "Landfill (typical managed)" from rfl,
      WASTE_EF_landfill]; rfl

theorem transport_zero : transport_emissions_kg zeroInput = some 0 := by
  norm_num [transport_emissions_kg, zeroInput, annual_commute_km, TRANSPORT_EF_PAXKM]

theorem elec_zero : electricity_emissions_kg zeroInput = some 0 := by
  norm_num [electricity_emissions_kg, zeroInput, annual_kwh, ELECTRICITY_EF]

theorem diet_zero : diet_emissions_kg zeroInput = some (205495/100) := by
  simp only [diet_emissions_kg, zeroInput]
  rw [DIET_DAILY_medium]
  norm_num

theorem waste_zero : waste_emissions_kg zeroInput = some 0 := by
  norm_num [waste_emissions_kg, zeroInput, annual_residual_kg, residual_weekly, WASTE_EF]

theorem cat_zero : category_tonnes zeroInput = some ⟨0, 0, 2055/1000, 0⟩ := by
  rw [category_tonnes_eq zeroInput transport_zero elec_zero diet_zero waste_zero]
  norm_num [round3, round_eq]

/-- The scenario input with an out-of-range segregation percent of 150. -/
def seg150Input : ActivityInput := { scenarioInput with segregation := 150 }

/-- The scenario input with a negative daily commute distance. -/
def negKmInput : ActivityInput := { scenarioInput with daily_commute_km := -5 }

/-- The scenario input with 400 commute days, outside [0, 365]. -/
def days400Input : ActivityInput := { scenarioInput with commute_days := 400 }

/-- The scenario input with an unrecognized commute mode. -/
def badModeInput : ActivityInput := { scenarioInput with mode := "bike" }

/-- The scenario input with an unrecognized diet pattern. -/
def badDietInput : ActivityInput := { scenarioInput with diet_type := "Keto" }

/-- The scenario input with an unrecognized waste treatment pathway. -/
def badTreatmentInput : ActivityInput := { scenarioInput with waste_treatment := "Open dump" }

/-- The scenario input with an unrecognized country. -/
def badCountryInput : ActivityInput := { scenarioInput with country := "France" }

theorem transport_seg150 : transport_emissions_kg seg150Input = some 612 := by
  norm_num [transport_emissions_kg, seg150Input, scenarioInput, annual_commute_km,
    TRANSPORT_EF_PAXKM]

theorem elec_seg150 : electricity_emissions_kg seg150Input = some 2148 := by
  norm_num [electricity_emissions_kg, seg150Input, scenarioInput, annual_kwh, ELECTRICITY_EF]

theorem diet_seg150 : diet_emissions_kg seg150Input = some (205495/100) := by
  simp only [diet_emissions_kg, seg150Input, scenarioInput]
  rw [DIET_DAILY_medium]
  norm_num

theorem waste_seg150 : waste_emissions_kg seg150Input = some (-(468/10)) := by
  norm_num [waste_emissions_kg, seg150Input, scenarioInput, annual_residual_kg,
    residual_weekly, WASTE_EF]

theorem cat_seg150 : category_tonnes seg150Input =
    some ⟨612/1000, 2148/1000, 2055/1000, -(47/1000)⟩ := by
  rw [category_tonnes_eq seg150Input transport_seg150 elec_seg150 diet_seg150 waste_seg150]
  norm_num [round3, round_eq]

theorem transport_negKm : transport_emissions_kg negKmInput = some (-204) := by
  norm_num [transport_emissions_kg, negKmInput, scenarioInput, annual_commute_km,
    TRANSPORT_EF_PAXKM]

theorem elec_negKm : electricity_emissions_kg negKmInput = some 2148 := by
  norm_num [electricity_emissions_kg, negKmInput, scenarioInput, annual_kwh, ELECTRICITY_EF]

theorem diet_negKm : diet_emissions_kg negKmInput = some (205495/100) := by
  simp only [diet_emissions_kg, negKmInput, scenarioInput]
  rw [DIET_DAILY_medium]
  norm_num

theorem waste_negKm : waste_emissions_kg negKmInput = some (7488/100) := by
  norm_num [waste_emissions_kg, negKmInput, scenarioInput, annual_residual_kg,
    residual_weekly, WASTE_EF]

theorem cat_negKm : category_tonnes negKmInput =
    some ⟨-(204/1000), 2148/1000, 2055/1000, 75/1000⟩ := by
  rw [category_tonnes_eq negKmInput transport_negKm elec_negKm diet_negKm waste_negKm]
  norm_num [round3, round_eq]

theorem transport_days400 : transport_emissions_kg days400Input = some 1020 := by
  norm_num [transport_emissions_kg, days400Input, scenarioInput, annual_commute_km,
    TRANSPORT_EF_PAXKM]

theorem elec_days400 : electricity_emissions_kg days400Input = some 2148 := by
  norm_num [electricity_emissions_kg, days400Input, scenarioInput, annual_kwh, ELECTRICITY_EF]

theorem diet_days400 : diet_emissions_kg days400Input = some (205495/100) := by
  simp only [diet_emissions_kg, days400Input, scenarioInput]
  rw [DIET_DAILY_medium]
  norm_num

theorem waste_days400 : waste_emissions_kg days400Input = some (7488/100) := by
  norm_num [waste_emissions_kg, days400Input, scenarioInput, annual_residual_kg,
    residual_weekly, WASTE_EF]

theorem cat_days400 : category_tonnes days400Input =
    some ⟨1020/1000, 2148/1000, 2055/1000, 75/1000⟩ := by
  rw [category_tonnes_eq days400Input transport_days400 elec_days400 diet_days400 waste_days400]
  norm_num [round3, round_eq]

theorem TRANSPORT_EF_bike : TRANSPORT_EF_PAXKM "bike" = none := by decide

theorem DIET_DAILY_keto : DIET_DAILY "Keto" = none := by decide

theorem WASTE_EF_openDump : WASTE_EF "Open dump" = none := by decide

theorem ELECTRICITY_EF_france : ELECTRICITY_EF "France" = none := by decide

theorem cat_badMode : category_tonnes badModeInput = none := by
  have h : transport_emissions_kg badModeInput = none := by
    rw [transport_kg_eq, show badModeInput.mode = "bike" from rfl, TRANSPORT_EF_bike]
    rfl
  simp [category_tonnes, h]

theorem cat_badDiet : category_tonnes badDietInput = none := by
  have h1 : transport_emissions_kg badDietInput = some 612 := by
    norm_num [transport_emissions_kg, badDietInput, scenarioInput, annual_commute_km,
      TRANSPORT_EF_PAXKM]
  have h2 : electricity_emissions_kg badDietInput = some 2148 := by
    norm_num [electricity_emissions_kg, badDietInput, scenarioInput, annual_kwh, ELECTRICITY_EF]
  have h3 : diet_emissions_kg badDietInput = none := by
    unfold diet_emissions_kg
    rw [show badDietInput.diet_type = "Keto" from rfl, DIET_DAILY_keto]
    rfl
  simp [category_tonnes, h1, h2, h3]

theorem cat_badTreatment : category_tonnes badTreatmentInput = none := by
  have h1 : transport_emissions_kg badTreatmentInput = some 612 := by
    norm_num [transport_emissions_kg, badTreatmentInput, scenarioInput, annual_commute_km,
      TRANSPORT_EF_PAXKM]
  have h2 : electricity_emissions_kg badTreatmentInput = some 2148 := by
    norm_num [electricity_emissions_kg, badTreatmentInput, scenarioInput, annual_kwh,
      ELECTRICITY_EF]
  have h3 : diet_emissions_kg badTreatmentInput = some (205495/100) := by
    simp only [diet_emissions_kg, badTreatmentInput, scenarioInput]
    rw [DIET_DAILY_medium]
    norm_num
  have h4 : waste_emissions_kg badTreatmentInput = none := by
    unfold waste_emissions_kg
    rw [show badTreatmentInput.waste_treatment = "Open dump" from rfl, WASTE_EF_openDump]
    rfl
  simp [category_tonnes, h1, h2, h3, h4]

theorem cat_badCountry : category_tonnes badCountryInput = none := by
  have h1 : transport_emissions_kg badCountryInput = some 612 := by
    norm_num [transport_emissions_kg, badCountryInput, scenarioInput, annual_commute_km,
      TRANSPORT_EF_PAXKM]
  have h2 : electricity_emissions_kg badCountryInput = none := by
    unfold electricity_emissions_kg
    rw [show badCountryInput.country = "France" from rfl, ELECTRICITY_EF_france]
    rfl
  simp [category_tonnes, h1, h2]

/-- Baseline for the rounding-order counterexample to the comparator refinement:
tiny electricity and waste quantities whose third-decimal remainders accumulate. -/
def cexBase : ActivityInput :=
  { country := "India", mode := "car", daily_commute_km := 0, commute_days := 0,
    car_occupancy := 1, monthly_kwh := 1/20, diet_type := "Medium meat",
    weekly_waste_kg := 1/50, segregation := 0,
    waste_treatment := "Landfill (typical managed)" }

/-- What-if knobs for the comparator counterexample: same mode, no electricity
cut, diet switched to vegan, no extra segregation. -/
def cexWhatIf : WhatIfInput :=
  { alt_mode := "car", alt_occupancy := 1, kwh_cut := 0, diet_switch := "Vegan",
    extra_segregation := 0 }

theorem new_total_cex : new_total_t cexBase cexWhatIf = some (1056/1000) := by
  simp only [new_total_t, cexBase, cexWhatIf]
  rw [TRANSPORT_EF_car, ELECTRICITY_EF_India, DIET_DAILY_vegan, WASTE_EF_landfill]
  simp only [Option.some_bind, Option.map_some']
  norm_num [new_segregation, cexBase, cexWhatIf, round3, round_eq]

theorem transport_alt_cex :
    transport_emissions_kg (alternateInput cexBase cexWhatIf) = some 0 := by
  norm_num [transport_emissions_kg, alternateInput, cexBase, cexWhatIf, annual_commute_km,
    TRANSPORT_EF_PAXKM]

theorem elec_alt_cex :
    electricity_emissions_kg (alternateInput cexBase cexWhatIf) = some (537/1250) := by
  norm_num [electricity_emissions_kg, alternateInput, cexBase, cexWhatIf, annual_kwh,
    ELECTRICITY_EF]

theorem diet_alt_cex :
    diet_emissions_kg (alternateInput cexBase cexWhatIf) = some (105485/100) := by
  simp only [diet_emissions_kg, alternateInput, cexBase, cexWhatIf]
  rw [DIET_DAILY_vegan]
  norm_num

theorem waste_alt_cex :
    waste_emissions_kg (alternateInput cexBase cexWhatIf) = some (117/250) := by
  norm_num [waste_emissions_kg, alternateInput, cexBase, cexWhatIf, annual_residual_kg,
    residual_weekly, new_segregation, WASTE_EF]

theorem cat_alt_cex : category_tonnes (alternateInput cexBase cexWhatIf) =
    some ⟨0, 0, 1055/1000, 0⟩ := by
  rw [category_tonnes_eq (alternateInput cexBase cexWhatIf) transport_alt_cex elec_alt_cex
    diet_alt_cex waste_alt_cex]
  norm_num [round3, round_eq]

theorem total_alt_cex : total_tonnes (alternateInput cexBase cexWhatIf) =
    some (1055/1000) := by
  rw [total_tonnes, cat_alt_cex]
  norm_num [sum_categories, round3, round_eq]

/-- The all-zero input with monthly electricity raised from 0 to 0.01 kWh:
too small to move the rounded Electricity category. -/
def kwhUp : ActivityInput := { zeroInput with monthly_kwh := 1/100 }

theorem transport_kwhUp : transport_emissions_kg kwhUp = some 0 := by
  norm_num [transport_emissions_kg, kwhUp, zeroInput, annual_commute_km, TRANSPORT_EF_PAXKM]

theorem elec_kwhUp : electricity_emissions_kg kwhUp = some (537/6250) := by
  norm_num [electricity_emissions_kg, kwhUp, zeroInput, annual_kwh, ELECTRICITY_EF]

theorem diet_kwhUp : diet_emissions_kg kwhUp = some (205495/100) := by
  simp only [diet_emissions_kg, kwhUp, zeroInput]
  rw [DIET_DAILY_medium]
  norm_num

theorem waste_kwhUp : waste_emissions_kg kwhUp = some 0 := by
  norm_num [waste_emissions_kg, kwhUp, zeroInput, annual_residual_kg, residual_weekly, WASTE_EF]

theorem cat_kwhUp : category_tonnes kwhUp = some ⟨0, 0, 2055/1000, 0⟩ := by
  rw [category_tonnes_eq kwhUp transport_kwhUp elec_kwhUp diet_kwhUp waste_kwhUp]
  norm_num [round3, round_eq]

/-- Scenario input with full segregation and no residual waste. -/
def seg100dry : ActivityInput := { scenarioInput with segregation := 100, weekly_waste_kg := 0 }

/-- Scenario input with full segregation and 5 kg/week residual waste. -/
def seg100wet : ActivityInput := { scenarioInput with segregation := 100, weekly_waste_kg := 5 }

theorem waste_seg100dry : waste_emissions_kg seg100dry = some 0 := by
  norm_num [waste_emissions_kg, seg100dry, scenarioInput, annual_residual_kg,
    residual_weekly, WASTE_EF]

theorem waste_seg100wet : waste_emissions_kg seg100wet = some 0 := by
  norm_num [waste_emissions_kg, seg100wet, scenarioInput, annual_residual_kg,
    residual_weekly, WASTE_EF]

/-- Scenario input with no residual waste at 0% segregation. -/
def noWasteLow : ActivityInput := { scenarioInput with weekly_waste_kg := 0, segregation := 0 }

/-- Scenario input with no residual waste at 50% segregation. -/
def noWasteHigh : ActivityInput := { scenarioInput with weekly_waste_kg := 0, segregation := 50 }

theorem waste_noWasteLow : waste_emissions_kg noWasteLow = some 0 := by
  norm_num [waste_emissions_kg, noWasteLow, scenarioInput, annual_residual_kg,
    residual_weekly, WASTE_EF]

theorem waste_noWasteHigh : waste_emissions_kg noWasteHigh = some 0 := by
  norm_num [waste_emissions_kg, noWasteHigh, scenarioInput, annual_residual_kg,
    residual_weekly, WASTE_EF]

theorem elec_m100 :
    electricity_emissions_kg { scenarioInput with monthly_kwh := 100 } = some (4296/5) := by
  norm_num [electricity_emissions_kg, scenarioInput, annual_kwh, ELECTRICITY_EF]

theorem elec_m200 :
    electricity_emissions_kg { scenarioInput with monthly_kwh := 200 } = some (8592/5) := by
  norm_num [electricity_emissions_kg, scenarioInput, annual_kwh, ELECTRICITY_EF]

theorem waste_w1 :
    waste_emissions_kg { scenarioInput with weekly_waste_kg := 1 } = some (468/25) := by
  norm_num [waste_emissions_kg, scenarioInput, annual_residual_kg, residual_weekly, WASTE_EF]

theorem waste_w2 :
    waste_emissions_kg { scenarioInput with weekly_waste_kg := 2 } = some (936/25) := by
  norm_num [waste_emissions_kg, scenarioInput, annual_residual_kg, residual_weekly, WASTE_EF]

theorem waste_s20 :
    waste_emissions_kg { scenarioInput with segregation := 20 } = some (1872/25) := by
  norm_num [waste_emissions_kg, scenarioInput, annual_residual_kg, residual_weekly, WASTE_EF]

theorem waste_s40 :
    waste_emissions_kg { scenarioInput with segregation := 40 } = some (1404/25) := by
  norm_num [waste_emissions_kg, scenarioInput, annual_residual_kg, residual_weekly, WASTE_EF]

/-- Commute emissions are non-negative for non-negative distance and days. -/
theorem transport_kg_nonneg {i : ActivityInput} {t : ℚ}
    (h0 : 0 ≤ i.daily_commute_km) (h1 : 0 ≤ i.commute_days)
    (h : transport_emissions_kg i = some t) : 0 ≤ t := by
  rw [transport_kg_eq, Option.map_eq_some'] at h
  obtain ⟨f, hf, ht⟩ := h
  rw [← ht]
  exact mul_nonneg (mul_nonneg h0 h1) (TRANSPORT_EF_nonneg hf)

/-- Electricity emissions are non-negative for non-negative monthly kWh. -/
theorem elec_kg_nonneg {i : ActivityInput} {e : ℚ}
    (h0 : 0 ≤ i.monthly_kwh) (h : electricity_emissions_kg i = some e) : 0 ≤ e := by
  unfold electricity_emissions_kg at h
  rw [Option.map_eq_some'] at h
  obtain ⟨f, hf, he⟩ := h
  rw [← he, ELECTRICITY_EF_eq hf]
  exact mul_nonneg (mul_nonneg h0 (by norm_num)) (by norm_num)

/-- Waste emissions are non-negative for non-negative residual weight and a
segregation percent of at most 100. -/
theorem waste_kg_nonneg {i : ActivityInput} {w : ℚ}
    (h0 : 0 ≤ i.weekly_waste_kg) (h1 : i.segregation ≤ 100)
    (h : waste_emissions_kg i = some w) : 0 ≤ w := by
  unfold waste_emissions_kg at h
  rw [Option.map_eq_some'] at h
  obtain ⟨f, hf, hw⟩ := h
  rw [← hw]
  have hseg : 0 ≤ 1 - i.segregation / 100 := by linarith
  exact mul_nonneg (mul_nonneg (mul_nonneg h0 hseg) (by norm_num)) (WASTE_EF_pos hf).le

/-! ### Claim theorems -/

/-- C1 (counterexample): on the spec §8 scenario the code returns Diet = 2.055 t
and Total = 4.890 t, while the claim expects Diet ≈ 2.05 and Total ≈ 4.885
within ±0.002; both differ from the claimed values by 0.005 > 0.002. -/
theorem C1_scenario_counterexample :
    category_tonnes scenarioInput = some ⟨612/1000, 2148/1000, 2055/1000, 75/1000⟩ ∧
    ¬ |(2055 : ℚ)/1000 - 205/100| ≤ 2/1000 ∧
    total_tonnes scenarioInput = some (4890/1000) ∧
    ¬ |(4890 : ℚ)/1000 - 4885/1000| ≤ 2/1000 :=
  ⟨cat_scenario, by norm_num [abs_le], total_scenario, by norm_num [abs_le]⟩

/-- C1 (amended): on the concrete scenario (India, car, 15 km/day, 240 days/yr,
occupancy 1.0, 250 kWh/month, medium-meat diet, 4 kg/week, 20% segregation,
landfill) the code returns exactly Transportation 0.612, Electricity 2.148,
Diet 2.055, Waste 0.075 and Total 4.890 tonnes. -/
theorem C1_scenario_amended :
    category_tonnes scenarioInput = some ⟨612/1000, 2148/1000, 2055/1000, 75/1000⟩ ∧
    total_tonnes scenarioInput = some (4890/1000) :=
  ⟨cat_scenario, total_scenario⟩

/-- C2 (counterexample): with every numeric quantity at zero the Diet category is
2.055 tonnes, not 0.000, so the all-zero CategoryResult claim fails. -/
theorem C2_zero_counterexample :
    zeroInput.daily_commute_km = 0 ∧ zeroInput.commute_days = 0 ∧
    zeroInput.monthly_kwh = 0 ∧ zeroInput.weekly_waste_kg = 0 ∧
    category_tonnes zeroInput = some ⟨0, 0, 2055/1000, 0⟩ ∧
    ((2055 : ℚ)/1000 ≠ 0) :=
  ⟨rfl, rfl, rfl, rfl, cat_zero, by norm_num⟩

/-- C2 (amended): with all numeric quantities at zero, Transportation,
Electricity and Waste are 0.000 tonnes, but Diet stays strictly positive (the
diet factor is independent of the activity quantities) and the total equals the
Diet value. -/
theorem C2_zero_amended (i : ActivityInput) (r : CategoryResult)
    (h0 : i.daily_commute_km = 0) (h1 : i.commute_days = 0) (h2 : i.monthly_kwh = 0)
    (h3 : i.weekly_waste_kg = 0) (h : category_tonnes i = some r) :
    r.transportation = 0 ∧ r.electricity = 0 ∧ r.waste = 0 ∧ 0 < r.diet ∧
    total_tonnes i = some r.diet := by
  obtain ⟨t, e, d, w, ht, he, hd, hw, hr⟩ := category_tonnes_some h
  have ht0 : t = 0 := by
    rw [transport_kg_eq, Option.map_eq_some'] at ht
    obtain ⟨f, hf, hft⟩ := ht
    rw [← hft]
    unfold annual_commute_km
    rw [h0]
    ring
  have he0 : e = 0 := by
    unfold electricity_emissions_kg at he
    rw [Option.map_eq_some'] at he
    obtain ⟨f, hf, hfe⟩ := he
    rw [← hfe]
    unfold annual_kwh
    rw [h2]
    ring
  have hw0 : w = 0 := by
    unfold waste_emissions_kg at hw
    rw [Option.map_eq_some'] at hw
    obtain ⟨f, hf, hfw⟩ := hw
    rw [← hfw]
    unfold annual_residual_kg residual_weekly
    rw [h3]
    ring
  have hdge := diet_tonnes_ge hd
  have hz : round3 ((0 : ℚ) / 1000) = 0 := by simp [round3]
  refine ⟨?_, ?_, ?_, ?_, ?_⟩
  · rw [hr, ht0]
    exact hz
  · rw [hr, he0]
    exact hz
  · rw [hr, hw0]
    exact hz
  · rw [hr]
    show 0 < round3 (d / 1000)
    linarith
  · unfold total_tonnes
    rw [h]
    have hsum : sum_categories r = r.diet := by
      rw [hr, ht0, he0, hw0]
      show round3 ((0:ℚ)/1000) + round3 ((0:ℚ)/1000) + round3 (d/1000) + round3 ((0:ℚ)/1000)
        = round3 (d/1000)
      rw [hz]
      ring
    show some (round3 (sum_categories r)) = some r.diet
    rw [hsum, hr]
    show some (round3 (round3 (d/1000))) = _
    rw [round3_idem]

/-- C2 (witness): the amended zero-quantity statement applied to the concrete
all-zero input. -/
theorem C2_zero_witness :
    (⟨0, 0, 2055/1000, 0⟩ : CategoryResult).transportation = 0 ∧
    (⟨0, 0, 2055/1000, 0⟩ : CategoryResult).electricity = 0 ∧
    (⟨0, 0, 2055/1000, 0⟩ : CategoryResult).waste = 0 ∧
    0 < (⟨0, 0, 2055/1000, 0⟩ : CategoryResult).diet ∧
    total_tonnes zeroInput = some (⟨0, 0, 2055/1000, 0⟩ : CategoryResult).diet :=
  C2_zero_amended zeroInput ⟨0, 0, 2055/1000, 0⟩ rfl rfl rfl rfl cat_zero

/-- C3 (counterexample): with segregationPercent = 150 the computation does not
fail; it returns a CategoryResult (with a negative Waste entry), refuting the
claim that out-of-range inputs are rejected. -/
theorem C3_validation_counterexample :
    seg150Input.segregation = 150 ∧
    category_tonnes seg150Input = some ⟨612/1000, 2148/1000, 2055/1000, -(47/1000)⟩ :=
  ⟨rfl, cat_seg150⟩

/-- C3 (amended): the computation performs no numeric range validation — negative
distance, segregation 150 and 400 commute days all still produce a
CategoryResult (range limits exist only in the UI widgets) — while an
unrecognized enum key (mode, diet, treatment pathway, country) does fail
closed: the lookup produces no result instead of a default factor. -/
theorem C3_validation_amended :
    category_tonnes seg150Input = some ⟨612/1000, 2148/1000, 2055/1000, -(47/1000)⟩ ∧
    category_tonnes negKmInput = some ⟨-(204/1000), 2148/1000, 2055/1000, 75/1000⟩ ∧
    category_tonnes days400Input = some ⟨1020/1000, 2148/1000, 2055/1000, 75/1000⟩ ∧
    category_tonnes badModeInput = none ∧
    category_tonnes badDietInput = none ∧
    category_tonnes badTreatmentInput = none ∧
    category_tonnes badCountryInput = none :=
  ⟨cat_seg150, cat_negKm, cat_days400, cat_badMode, cat_badDiet, cat_badTreatment,
    cat_badCountry⟩

/-- C4: for a car commute the occupancy field never affects the result — any two
occupancy values at least 1 give the same Transportation emissions, equal to
dailyDistanceKm * annualDaysCommuted * 0.170. -/
theorem C4_occupancy_unused (i : ActivityInput) (o1 o2 : ℚ) (hm : i.mode = "car")
    (h1 : 1 ≤ o1) (h2 : 1 ≤ o2) :
    transport_emissions_kg { i with car_occupancy := o1 }
      = transport_emissions_kg { i with car_occupancy := o2 } ∧
    transport_emissions_kg { i with car_occupancy := o1 }
      = some (i.daily_commute_km * i.commute_days * (170/1000)) := by
  have key : ∀ o : ℚ, 1 ≤ o → transport_emissions_kg { i with car_occupancy := o }
      = some (i.daily_commute_km * i.commute_days * (170/1000)) := by
    intro o ho
    unfold transport_emissions_kg
    rw [if_pos ⟨hm, by linarith⟩, TRANSPORT_EF_car]
    rfl
  exact ⟨(key o1 h1).trans (key o2 h2).symm, key o1 h1⟩

/-- C4 (witness): occupancy 2 and occupancy 5 give the same car Transportation
emissions on the concrete scenario. -/
theorem C4_occupancy_witness :
    transport_emissions_kg { scenarioInput with car_occupancy := 2 }
      = transport_emissions_kg { scenarioInput with car_occupancy := 5 } ∧
    transport_emissions_kg { scenarioInput with car_occupancy := 2 }
      = some (scenarioInput.daily_commute_km * scenarioInput.commute_days * (170/1000)) :=
  C4_occupancy_unused scenarioInput 2 5 rfl (by norm_num) (by norm_num)

/-- C5: the total is the sum of the four per-category tonnes values rounded to 3
decimals each (the final `round` is the identity on that sum), and this total is
within 0.002 tonnes of the sum of the unrounded per-category tonnes values. -/
theorem C5_rounding_order (i : ActivityInput) (t e d w : ℚ)
    (h1 : transport_emissions_kg i = some t) (h2 : electricity_emissions_kg i = some e)
    (h3 : diet_emissions_kg i = some d) (h4 : waste_emissions_kg i = some w) :
    total_tonnes i
      = some (round3 (t/1000) + round3 (e/1000) + round3 (d/1000) + round3 (w/1000)) ∧
    |(round3 (t/1000) + round3 (e/1000) + round3 (d/1000) + round3 (w/1000))
      - (t/1000 + e/1000 + d/1000 + w/1000)| ≤ 2/1000 := by
  constructor
  · unfold total_tonnes
    rw [category_tonnes_eq i h1 h2 h3 h4]
    show some (round3 (sum_categories _)) = _
    rw [show sum_categories ⟨round3 (t/1000), round3 (e/1000), round3 (d/1000), round3 (w/1000)⟩
        = round3 (t/1000) + round3 (e/1000) + round3 (d/1000) + round3 (w/1000) from rfl]
    rw [round3_sum_rounded]
  · have b1 := abs_round3_sub (t/1000)
    have b2 := abs_round3_sub (e/1000)
    have b3 := abs_round3_sub (d/1000)
    have b4 := abs_round3_sub (w/1000)
    have key : (round3 (t/1000) + round3 (e/1000) + round3 (d/1000) + round3 (w/1000))
        - (t/1000 + e/1000 + d/1000 + w/1000)
        = (round3 (t/1000) - t/1000) + ((round3 (e/1000) - e/1000)
          + ((round3 (d/1000) - d/1000) + (round3 (w/1000) - w/1000))) := by ring
    rw [key]
    have hA := abs_add (round3 (t/1000) - t/1000)
      ((round3 (e/1000) - e/1000) + ((round3 (d/1000) - d/1000) + (round3 (w/1000) - w/1000)))
    have hB := abs_add (round3 (e/1000) - e/1000)
      ((round3 (d/1000) - d/1000) + (round3 (w/1000) - w/1000))
    have hC := abs_add (round3 (d/1000) - d/1000) (round3 (w/1000) - w/1000)
    linarith

/-- C5 (witness): the rounding-order statement applied to the concrete scenario. -/
theorem C5_rounding_order_witness :
    total_tonnes scenarioInput
      = some (round3 ((612:ℚ)/1000) + round3 ((2148:ℚ)/1000) + round3 ((205495:ℚ)/100/1000)
        + round3 ((7488:ℚ)/100/1000)) ∧
    |(round3 ((612:ℚ)/1000) + round3 ((2148:ℚ)/1000) + round3 ((205495:ℚ)/100/1000)
        + round3 ((7488:ℚ)/100/1000))
      - ((612:ℚ)/1000 + (2148:ℚ)/1000 + (205495:ℚ)/100/1000 + (7488:ℚ)/100/1000)| ≤ 2/1000 :=
  C5_rounding_order scenarioInput 612 2148 (205495/100) (7488/100) transport_scenario
    elec_scenario diet_scenario waste_scenario

/-- C6 (counterexample): for a concrete baseline and What-if override the
comparator's alternate total is 1.056 t while invoking the model on the
alternate input gives 1.055 t — the comparator is not equivalent to the model. -/
theorem C6_compare_counterexample :
    new_total_t cexBase cexWhatIf = some (1056/1000) ∧
    total_tonnes (alternateInput cexBase cexWhatIf) = some (1055/1000) ∧
    ((1056 : ℚ)/1000 ≠ 1055/1000) :=
  ⟨new_total_cex, total_alt_cex, by norm_num⟩

/-- C6 (amended): the comparator's per-category kg values agree with the
Emissions Model applied to the composed alternate input, but its total rounds
once over the unrounded kg sum instead of summing per-category rounded tonnes;
the two totals can differ, by at most 0.0025 tonnes. -/
theorem C6_compare_amended (i : ActivityInput) (w : WhatIfInput) (t e d wk : ℚ)
    (h1 : transport_emissions_kg (alternateInput i w) = some t)
    (h2 : electricity_emissions_kg (alternateInput i w) = some e)
    (h3 : diet_emissions_kg (alternateInput i w) = some d)
    (h4 : waste_emissions_kg (alternateInput i w) = some wk) :
    new_total_t i w = some (round3 ((t + e + d + wk)/1000)) ∧
    total_tonnes (alternateInput i w)
      = some (round3 (t/1000) + round3 (e/1000) + round3 (d/1000) + round3 (wk/1000)) ∧
    |round3 ((t + e + d + wk)/1000)
      - (round3 (t/1000) + round3 (e/1000) + round3 (d/1000) + round3 (wk/1000))| ≤ 5/2000 := by
  have h1' := h1
  rw [transport_kg_eq, Option.map_eq_some'] at h1'
  obtain ⟨tef, htef, htt⟩ := h1'
  have h2' := h2
  unfold electricity_emissions_kg at h2'
  rw [Option.map_eq_some'] at h2'
  obtain ⟨eef, heef, hee⟩ := h2'
  have h3' := h3
  unfold diet_emissions_kg at h3'
  rw [Option.map_eq_some'] at h3'
  obtain ⟨dd, hdd, hde⟩ := h3'
  have h4' := h4
  unfold waste_emissions_kg at h4'
  rw [Option.map_eq_some'] at h4'
  obtain ⟨wef, hwef, hwe⟩ := h4'
  refine ⟨?_, ?_, ?_⟩
  · have hnew : new_total_t i w
        = some (round3 ((i.daily_commute_km * i.commute_days * tef
          + i.monthly_kwh * (1 - w.kwh_cut/100) * 12 * eef + dd * 365
          + i.weekly_waste_kg * (1 - new_segregation i w / 100) * 52 * wef)/1000)) := by
      unfold new_total_t
      rw [show TRANSPORT_EF_PAXKM w.alt_mode = some tef from htef,
        show ELECTRICITY_EF i.country = some eef from heef,
        show DIET_DAILY w.diet_switch = some dd from hdd,
        show WASTE_EF i.waste_treatment = some wef from hwef]
      rfl
    have hT : i.daily_commute_km * i.commute_days * tef = t := htt
    have hE : i.monthly_kwh * (1 - w.kwh_cut/100) * 12 * eef = e := hee
    have hD : dd * 365 = d := hde
    have hW : i.weekly_waste_kg * (1 - new_segregation i w / 100) * 52 * wef = wk := hwe
    rw [hT, hE, hD, hW] at hnew
    exact hnew
  · unfold total_tonnes
    rw [category_tonnes_eq (alternateInput i w) h1 h2 h3 h4]
    show some (round3 (sum_categories _)) = _
    rw [show sum_categories ⟨round3 (t/1000), round3 (e/1000), round3 (d/1000), round3 (wk/1000)⟩
        = round3 (t/1000) + round3 (e/1000) + round3 (d/1000) + round3 (wk/1000) from rfl]
    rw [round3_sum_rounded]
  · have b0 := abs_round3_sub ((t + e + d + wk)/1000)
    have b1 : |t/1000 - round3 (t/1000)| ≤ 1/2000 := by
      rw [abs_sub_comm]
      exact abs_round3_sub (t/1000)
    have b2 : |e/1000 - round3 (e/1000)| ≤ 1/2000 := by
      rw [abs_sub_comm]
      exact abs_round3_sub (e/1000)
    have b3 : |d/1000 - round3 (d/1000)| ≤ 1/2000 := by
      rw [abs_sub_comm]
      exact abs_round3_sub (d/1000)
    have b4 : |wk/1000 - round3 (wk/1000)| ≤ 1/2000 := by
      rw [abs_sub_comm]
      exact abs_round3_sub (wk/1000)
    have key : round3 ((t + e + d + wk)/1000)
        - (round3 (t/1000) + round3 (e/1000) + round3 (d/1000) + round3 (wk/1000))
        = (round3 ((t + e + d + wk)/1000) - (t + e + d + wk)/1000)
          + ((t/1000 - round3 (t/1000)) + ((e/1000 - round3 (e/1000))
            + ((d/1000 - round3 (d/1000)) + (wk/1000 - round3 (wk/1000))))) := by ring
    rw [key]
    have hA := abs_add (round3 ((t + e + d + wk)/1000) - (t + e + d + wk)/1000)
      ((t/1000 - round3 (t/1000)) + ((e/1000 - round3 (e/1000))
        + ((d/1000 - round3 (d/1000)) + (wk/1000 - round3 (wk/1000)))))
    have hB := abs_add (t/1000 - round3 (t/1000))
      ((e/1000 - round3 (e/1000)) + ((d/1000 - round3 (d/1000)) + (wk/1000 - round3 (wk/1000))))
    have hC := abs_add (e/1000 - round3 (e/1000))
      ((d/1000 - round3 (d/1000)) + (wk/1000 - round3 (wk/1000)))
    have hD := abs_add (d/1000 - round3 (d/1000)) (wk/1000 - round3 (wk/1000))
    linarith

/-- C6 (witness): the amended comparator statement applied to the concrete
counterexample baseline and What-if override. -/
theorem C6_compare_amended_witness :
    new_total_t cexBase cexWhatIf
      = some (round3 (((0:ℚ) + 537/1250 + 105485/100 + 117/250)/1000)) ∧
    total_tonnes (alternateInput cexBase cexWhatIf)
      = some (round3 ((0:ℚ)/1000) + round3 ((537:ℚ)/1250/1000) + round3 ((105485:ℚ)/100/1000)
        + round3 ((117:ℚ)/250/1000)) ∧
    |round3 (((0:ℚ) + 537/1250 + 105485/100 + 117/250)/1000)
      - (round3 ((0:ℚ)/1000) + round3 ((537:ℚ)/1250/1000) + round3 ((105485:ℚ)/100/1000)
        + round3 ((117:ℚ)/250/1000))| ≤ 5/2000 :=
  C6_compare_amended cexBase cexWhatIf 0 (537/1250) (105485/100) (117/250) transport_alt_cex
    elec_alt_cex diet_alt_cex waste_alt_cex

/-- C7: the comparator's alternate segregation is min(100, baseline + increment);
it never exceeds 100, and when the sum exceeds 100 it is exactly 100. -/
theorem C7_segregation_cap (i : ActivityInput) (w : WhatIfInput)
    (h0 : 0 ≤ i.segregation) (h1 : i.segregation ≤ 100) (h2 : 0 ≤ w.extra_segregation) :
    new_segregation i w = min 100 (i.segregation + w.extra_segregation) ∧
    new_segregation i w ≤ 100 ∧
    (100 < i.segregation + w.extra_segregation → new_segregation i w = 100) := by
  refine ⟨rfl, min_le_left _ _, fun h => ?_⟩
  unfold new_segregation
  exact min_eq_left (le_of_lt h)

/-- Baseline at 90% segregation for the cap witness. -/
def capBase : ActivityInput := { scenarioInput with segregation := 90 }

/-- What-if knobs adding 20 percentage points of segregation. -/
def capWhatIf : WhatIfInput :=
  { alt_mode := "bus", alt_occupancy := 1, kwh_cut := 0, diet_switch := "Medium meat",
    extra_segregation := 20 }

/-- C7 (witness): the segregation cap applied at baseline 90% plus 20 points. -/
theorem C7_segregation_cap_witness :
    new_segregation capBase capWhatIf
      = min 100 (capBase.segregation + capWhatIf.extra_segregation) ∧
    new_segregation capBase capWhatIf ≤ 100 ∧
    (100 < capBase.segregation + capWhatIf.extra_segregation →
      new_segregation capBase capWhatIf = 100) :=
  C7_segregation_cap capBase capWhatIf (by norm_num [capBase, scenarioInput])
    (by norm_num [capBase, scenarioInput]) (by norm_num [capWhatIf])

/-- C8 (counterexample): the claimed strict monotonicity fails on the rounded
category results and at the boundary: raising monthly kWh from 0 to 0.01 leaves
the Electricity category at 0.000; at segregation 100 adding residual waste
leaves Waste emissions at 0; at zero residual waste raising segregation leaves
Waste emissions at 0. -/
theorem C8_monotonicity_counterexample :
    zeroInput.monthly_kwh < kwhUp.monthly_kwh ∧
    category_tonnes zeroInput = some ⟨0, 0, 2055/1000, 0⟩ ∧
    category_tonnes kwhUp = some ⟨0, 0, 2055/1000, 0⟩ ∧
    seg100dry.weekly_waste_kg < seg100wet.weekly_waste_kg ∧
    waste_emissions_kg seg100dry = some 0 ∧
    waste_emissions_kg seg100wet = some 0 ∧
    noWasteLow.segregation < noWasteHigh.segregation ∧
    waste_emissions_kg noWasteLow = some 0 ∧
    waste_emissions_kg noWasteHigh = some 0 :=
  ⟨by norm_num [zeroInput, kwhUp], cat_zero, cat_kwhUp,
    by norm_num [seg100dry, seg100wet, scenarioInput], waste_seg100dry, waste_seg100wet,
    by norm_num [noWasteLow, noWasteHigh, scenarioInput], waste_noWasteLow, waste_noWasteHigh⟩

/-- C8 (amended): on the unrounded kg emissions, increasing monthlyKwh strictly
increases Electricity; increasing weeklyResidualKg strictly increases Waste
provided segregation is below 100; increasing segregationPercent strictly
decreases Waste provided the residual weight is positive. -/
theorem C8_monotonicity_amended :
    (∀ (i : ActivityInput) (k1 k2 a b : ℚ), k1 < k2 →
      electricity_emissions_kg { i with monthly_kwh := k1 } = some a →
      electricity_emissions_kg { i with monthly_kwh := k2 } = some b → a < b) ∧
    (∀ (i : ActivityInput) (k1 k2 a b : ℚ), k1 < k2 → i.segregation < 100 →
      waste_emissions_kg { i with weekly_waste_kg := k1 } = some a →
      waste_emissions_kg { i with weekly_waste_kg := k2 } = some b → a < b) ∧
    (∀ (i : ActivityInput) (s1 s2 a b : ℚ), s1 < s2 → 0 < i.weekly_waste_kg →
      waste_emissions_kg { i with segregation := s1 } = some a →
      waste_emissions_kg { i with segregation := s2 } = some b → b < a) := by
  refine ⟨?_, ?_, ?_⟩
  · intro i k1 k2 a b hk ha hb
    unfold electricity_emissions_kg at ha hb
    rw [Option.map_eq_some'] at ha hb
    obtain ⟨f1, hf1, ha'⟩ := ha
    obtain ⟨f2, hf2, hb'⟩ := hb
    have e1 := ELECTRICITY_EF_eq hf1
    have e2 := ELECTRICITY_EF_eq hf2
    have hav : k1 * 12 * f1 = a := ha'
    have hbv : k2 * 12 * f2 = b := hb'
    rw [← hav, ← hbv, e1, e2]
    linarith
  · intro i k1 k2 a b hk hseg ha hb
    unfold waste_emissions_kg at ha hb
    rw [Option.map_eq_some'] at ha hb
    obtain ⟨f1, hf1, ha'⟩ := ha
    obtain ⟨f2, hf2, hb'⟩ := hb
    have hf1' : WASTE_EF i.waste_treatment = some f1 := hf1
    have hf2' : WASTE_EF i.waste_treatment = some f2 := hf2
    have hff : f1 = f2 := Option.some.inj (hf1'.symm.trans hf2')
    have hfpos := WASTE_EF_pos hf1'
    have hav : k1 * (1 - i.segregation/100) * 52 * f1 = a := ha'
    have hbv : k2 * (1 - i.segregation/100) * 52 * f2 = b := hb'
    rw [← hav, ← hbv, ← hff]
    have hpos : 0 < (1 - i.segregation/100) * 52 * f1 := by
      have hs : 0 < 1 - i.segregation/100 := by linarith
      exact mul_pos (mul_pos hs (by norm_num)) hfpos
    have hL : k1 * (1 - i.segregation/100) * 52 * f1
        = k1 * ((1 - i.segregation/100) * 52 * f1) := by ring
    have hR : k2 * (1 - i.segregation/100) * 52 * f1
        = k2 * ((1 - i.segregation/100) * 52 * f1) := by ring
    rw [hL, hR]
    exact mul_lt_mul_of_pos_right hk hpos
  · intro i s1 s2 a b hs hw ha hb
    unfold waste_emissions_kg at ha hb
    rw [Option.map_eq_some'] at ha hb
    obtain ⟨f1, hf1, ha'⟩ := ha
    obtain ⟨f2, hf2, hb'⟩ := hb
    have hf1' : WASTE_EF i.waste_treatment = some f1 := hf1
    have hf2' : WASTE_EF i.waste_treatment = some f2 := hf2
    have hff : f1 = f2 := Option.some.inj (hf1'.symm.trans hf2')
    have hfpos := WASTE_EF_pos hf1'
    have hav : i.weekly_waste_kg * (1 - s1/100) * 52 * f1 = a := ha'
    have hbv : i.weekly_waste_kg * (1 - s2/100) * 52 * f2 = b := hb'
    rw [← hav, ← hbv, ← hff]
    have key : i.weekly_waste_kg * (1 - s1/100) * 52 * f1
        - i.weekly_waste_kg * (1 - s2/100) * 52 * f1
        = i.weekly_waste_kg * 52 * f1 * ((s2 - s1)/100) := by ring
    have hp : 0 < i.weekly_waste_kg * 52 * f1 * ((s2 - s1)/100) := by
      have hwf : 0 < i.weekly_waste_kg * 52 * f1 :=
        mul_pos (mul_pos hw (by norm_num)) hfpos
      have hss : 0 < (s2 - s1)/100 := by linarith
      exact mul_pos hwf hss
    linarith

/-- C8 (witness): the amended monotonicity statements applied at concrete inputs
around the scenario baseline. -/
theorem C8_monotonicity_witness :
    ((4296:ℚ)/5 < 8592/5) ∧ ((468:ℚ)/25 < 936/25) ∧ ((1404:ℚ)/25 < 1872/25) :=
  ⟨C8_monotonicity_amended.1 scenarioInput 100 200 (4296/5) (8592/5) (by norm_num)
      elec_m100 elec_m200,
    C8_monotonicity_amended.2.1 scenarioInput 1 2 (468/25) (936/25) (by norm_num)
      (by norm_num [scenarioInput]) waste_w1 waste_w2,
    C8_monotonicity_amended.2.2 scenarioInput 20 40 (1872/25) (1404/25) (by norm_num)
      (by norm_num [scenarioInput]) waste_s20 waste_s40⟩

/-- C9: the exported Total (the unrounded sum of the already-rounded category
tonnes, as written to both the CSV dataframe and the JSON payload) coincides
with the model's accumulated total, so no further transformation is applied. -/
theorem C9_export_total (i : ActivityInput) (r : CategoryResult)
    (h : category_tonnes i = some r) :
    total_tonnes i = some (export_total r) := by
  obtain ⟨t, e, d, w, h1, h2, h3, h4, hr⟩ := category_tonnes_some h
  unfold total_tonnes
  rw [h]
  show some (round3 (sum_categories r)) = some (export_total r)
  subst hr
  rw [show sum_categories ⟨round3 (t/1000), round3 (e/1000), round3 (d/1000), round3 (w/1000)⟩
      = round3 (t/1000) + round3 (e/1000) + round3 (d/1000) + round3 (w/1000) from rfl]
  rw [round3_sum_rounded]
  rfl

/-- C9 (witness): the export-total identity on the concrete scenario. -/
theorem C9_export_total_witness :
    total_tonnes scenarioInput
      = some (export_total ⟨612/1000, 2148/1000, 2055/1000, 75/1000⟩) :=
  C9_export_total scenarioInput ⟨612/1000, 2148/1000, 2055/1000, 75/1000⟩ cat_scenario

/-- C10: for every valid input the Diet category is at least 1.055 tonnes (the
vegan daily factor times 365, rounded), and the total is strictly positive — no
activity quantities can produce an all-zero result. -/
theorem C10_diet_floor (i : ActivityInput) (r : CategoryResult)
    (hv : ValidInput i) (h : category_tonnes i = some r) :
    1055/1000 ≤ r.diet ∧ total_tonnes i = some (round3 (sum_categories r)) ∧
    0 < round3 (sum_categories r) := by
  obtain ⟨hdk, hdd, hdd365, hocc, hkwh, hwk, hs0, hs100, hc1, hc2, hc3, hc4⟩ := hv
  obtain ⟨t, e, d, w, h1, h2, h3, h4, hr⟩ := category_tonnes_some h
  have hdiet := diet_tonnes_ge h3
  have htn : 0 ≤ t := transport_kg_nonneg hdk hdd h1
  have hen : 0 ≤ e := elec_kg_nonneg hkwh h2
  have hwn : 0 ≤ w := waste_kg_nonneg hwk hs100 h4
  have hrt : 0 ≤ round3 (t/1000) := round3_nonneg (by positivity)
  have hre : 0 ≤ round3 (e/1000) := round3_nonneg (by positivity)
  have hrw : 0 ≤ round3 (w/1000) := round3_nonneg (by positivity)
  have hsum : 1055/1000 ≤ sum_categories r := by
    rw [hr]
    show (1055:ℚ)/1000
      ≤ round3 (t/1000) + round3 (e/1000) + round3 (d/1000) + round3 (w/1000)
    linarith
  refine ⟨?_, ?_, ?_⟩
  · rw [hr]
    exact hdiet
  · unfold total_tonnes
    rw [h]
    rfl
  · have hm := round3_mono hsum
    have h1055 : round3 ((1055:ℚ)/1000) = 1055/1000 := by norm_num [round3, round_eq]
    linarith

/-- C10 (witness): the diet floor and positive total on the concrete scenario. -/
theorem C10_diet_floor_witness :
    1055/1000 ≤ (⟨612/1000, 2148/1000, 2055/1000, 75/1000⟩ : CategoryResult).diet ∧
    total_tonnes scenarioInput
      = some (round3 (sum_categories ⟨612/1000, 2148/1000, 2055/1000, 75/1000⟩)) ∧
    0 < round3 (sum_categories (⟨612/1000, 2148/1000, 2055/1000, 75/1000⟩ : CategoryResult)) :=
  C10_diet_floor scenarioInput ⟨612/1000, 2148/1000, 2055/1000, 75/1000⟩ valid_scenario
    cat_scenario

end CarbonCalc
